import Mathlib

/-!
Verification of the Phala MCP server's registry discovery and enrichment
engine (the `getWorkerList` and `verifyAttestation` tools) against its
natural-language specification.

The JavaScript source is shallowly embedded: the module-level `workerCache`
becomes an explicit `WorkerCache` state threaded through calls, `Date.now()`
becomes a `now : Nat` argument, and the external collaborators (the on-chain
registry enumeration, the per-worker probes, the primary attestation
verifier) become function arguments, so every tool handler is a pure,
executable Lean function.
-/

namespace PhalaMcp

/-- The module-level `workerCache` object: `data` is the cached list of
worker keys (`none` models JavaScript `null`; note `[]` is truthy in JS,
so an empty list still counts as populated), `timestamp` is when it was
fetched. -/
structure WorkerCache where
  data : Option (List String)
  timestamp : Nat
  deriving Repr, DecidableEq

/-- `workerCache.TTL`: 60000 ms. -/
def cacheTTL : Nat := 60000

/-- Worker info as returned by `api.query.phalaRegistry.workers(key).toJSON()`.
Fields default exactly where the source applies `|| default`. -/
structure WorkerInfo where
  confidenceLevel : Nat
  runtimeVersion : Nat
  attestationMethod : String
  features : List Nat
  initialScore : Option Nat
  lastUpdated : Option Nat
  deriving Repr, DecidableEq

/-- A record pushed onto `workerList` by the `getWorkerList` handler. -/
structure WorkerRecord where
  publicKey : String
  confidenceLevel : Nat
  runtimeVersion : Nat
  attestationMethod : String
  features : List Nat
  teeType : String
  state : String
  initialScore : Option Nat
  lastUpdated : Option Nat
  deriving Repr, DecidableEq

/-- The TEE-type detection block of `getWorkerList` (the `detectedTeeType`
computation): nested conditionals on `info.attestationMethod` and
`info.features`, first match wins. Note the source tests
`features.includes(1)` and `features.includes(2)` alongside the
attestation-method tags. -/
def detectTeeType (attestationMethod : String) (features : List Nat) : String :=
  if attestationMethod = "Ias" ∨ features.contains 1 then "Intel SGX"
  else if attestationMethod = "Dcap" ∨ features.contains 2 then "Intel TDX"
  else if features.contains 3 then "AMD SEV"
  else if features.contains 4 then "NVIDIA Confidential Computing"
  else "Unknown"

/-- The classifier as the specification's precedence table words it:
attestation method alone decides the first two branches, feature flags
only the later ones. Written from the spec, to be compared with
`detectTeeType` (the code). -/
def specClassify (attestationMethod : String) (features : List Nat) : String :=
  if attestationMethod = "Ias" then "Intel SGX"
  else if attestationMethod = "Dcap" then "Intel TDX"
  else if features.contains 3 then "AMD SEV"
  else if features.contains 4 then "NVIDIA Confidential Computing"
  else "Unknown"

/-- The spec's precedence table amended minimally to match the source:
the first two branches also fire on feature flags 1 and 2 respectively. -/
def amendedClassify (attestationMethod : String) (features : List Nat) : String :=
  if attestationMethod = "Ias" then "Intel SGX"
  else if features.contains 1 then "Intel SGX"
  else if attestationMethod = "Dcap" then "Intel TDX"
  else if features.contains 2 then "Intel TDX"
  else if features.contains 3 then "AMD SEV"
  else if features.contains 4 then "NVIDIA Confidential Computing"
  else "Unknown"

/-- JavaScript truthiness of the optional `teeType` string argument:
`undefined` (here `none`) and the empty string are falsy. -/
def teeTypeActive : Option String → Bool
  | none => false
  | some t => !(t = "")

/-- The online filter of `getWorkerList`: a worker is skipped iff
`onlineOnly` is set and its state is neither Ready nor WorkerIdle.
This returns true iff the worker passes (is not skipped). -/
def passesOnlineFilter (onlineOnly : Bool) (workerState : String) : Bool :=
  !(onlineOnly && !(workerState = "Ready") && !(workerState = "WorkerIdle"))

/-- The TEE-type filter of `getWorkerList`: a worker is skipped iff the
`teeType` argument is truthy, the detected type differs from it, and the
detected type is not Unknown. Returns true iff the worker passes. -/
def passesTeeFilter (teeType : Option String) (detectedTeeType : String) : Bool :=
  !(teeTypeActive teeType && !(detectedTeeType = teeType.getD "") &&
    !(detectedTeeType = "Unknown"))

/-- The combined filter a probed worker must pass to be pushed onto
`workerList`, exactly the two sequential skip checks of the source. -/
def matchesFilters (onlineOnly : Bool) (teeType : Option String)
    (workerState detectedTeeType : String) : Bool :=
  passesOnlineFilter onlineOnly workerState &&
    passesTeeFilter teeType detectedTeeType

/-- The spec's capability categories (domain of the `categoryFilter`
interface type). -/
inductive Category where
  | intelSGX
  | intelTDX
  | amdSEV
  | nvidiaCC
  | unknown
  deriving Repr, DecidableEq

/-- The wire string of each category, as the source spells them. -/
def Category.toStr : Category → String
  | .intelSGX => "Intel SGX"
  | .intelTDX => "Intel TDX"
  | .amdSEV => "AMD SEV"
  | .nvidiaCC => "NVIDIA Confidential Computing"
  | .unknown => "Unknown"

/-- The filter predicate as the specification words it: `onlineOnly`
passes iff the state is Ready or Idle (spelled WorkerIdle on the wire);
a present category filter passes iff the record's category equals it or
is Unknown; both conditions are ANDed. Written from the spec, to be
compared with `matchesFilters` (the code). -/
def specMatches (onlineOnly : Bool) (categoryFilter : Option Category)
    (workerState : String) (category : Category) : Bool :=
  (!onlineOnly || (workerState = "Ready" || workerState = "WorkerIdle")) &&
    (match categoryFilter with
     | none => true
     | some f => category = f || category = Category.unknown)

/-- The cache check at the top of the `getWorkerList` handler (and its
refresh path). Given the current cache, the current time, and the result
the identity source would return if enumerated now, it yields either an
error (the enumeration threw and the cached branch was not taken) or the
keys to use, the cache afterwards, and whether an enumeration was
performed. The cached branch is taken iff `workerCache.data` is truthy
and `now - workerCache.timestamp < workerCache.TTL`. -/
def getCachedKeys (cache : WorkerCache) (now : Nat)
    (enumerate : Except String (List String)) :
    Except String (List String × WorkerCache × Bool) :=
  match cache.data with
  | some keys =>
    if now - cache.timestamp < cacheTTL then .ok (keys, cache, false)
    else
      match enumerate with
      | .ok ks => .ok (ks, ⟨some ks, now⟩, true)
      | .error e => .error e
  | none =>
    match enumerate with
    | .ok ks => .ok (ks, ⟨some ks, now⟩, true)
    | .error e => .error e

/-- What one iteration of the worker loop observes for a key:
the info query threw (timeout — caught, `processedCount` still
incremented), the info came back null or empty (`continue`), or the info
succeeded together with the resulting `workerState` string (already
defaulted to Unknown when the state query timed out or was empty). -/
inductive ProbeOutcome where
  | threw
  | empty
  | found (info : WorkerInfo) (workerState : String)
  deriving Repr, DecidableEq

/-- Builds the object pushed onto `workerList` for a successfully probed,
filter-passing worker, with the source's `|| default` fallbacks. -/
def buildRecord (workerPublicKey : String) (info : WorkerInfo)
    (workerState : String) : WorkerRecord :=
  { publicKey := workerPublicKey
    confidenceLevel := info.confidenceLevel
    runtimeVersion := info.runtimeVersion
    attestationMethod :=
      if info.attestationMethod = "" then "Unknown" else info.attestationMethod
    features := info.features
    teeType := detectTeeType info.attestationMethod info.features
    state := workerState
    initialScore := info.initialScore
    lastUpdated := info.lastUpdated }

/-- The `for (const key of workerKeys)` loop of `getWorkerList`.
Accumulators mirror the source's `workerList` and `processedCount`; the
third result counts how many keys were actually probed (reached the
info query), which the source does not track. The `continue` statements
of the source sit before `processedCount++`, so an empty or filtered-out
key is probed without incrementing `processedCount`; only a push or a
thrown query reaches the increment. -/
def processWorkers (probe : String → ProbeOutcome) (limit maxToProcess : Nat)
    (onlineOnly : Bool) (teeType : Option String) :
    List String → List WorkerRecord → Nat → Nat →
    List WorkerRecord × Nat × Nat
  | [], workerList, processedCount, probed => (workerList, processedCount, probed)
  | key :: rest, workerList, processedCount, probed =>
    if maxToProcess ≤ processedCount then (workerList, processedCount, probed)
    else if limit ≤ workerList.length then (workerList, processedCount, probed)
    else
      match probe key with
      | .threw =>
        processWorkers probe limit maxToProcess onlineOnly teeType rest
          workerList (processedCount + 1) (probed + 1)
      | .empty =>
        processWorkers probe limit maxToProcess onlineOnly teeType rest
          workerList processedCount (probed + 1)
      | .found info workerState =>
        if !(passesOnlineFilter onlineOnly workerState) then
          processWorkers probe limit maxToProcess onlineOnly teeType rest
            workerList processedCount (probed + 1)
        else if !(passesTeeFilter teeType
            (detectTeeType info.attestationMethod info.features)) then
          processWorkers probe limit maxToProcess onlineOnly teeType rest
            workerList processedCount (probed + 1)
        else
          processWorkers probe limit maxToProcess onlineOnly teeType rest
            (workerList ++ [buildRecord key info workerState])
            (processedCount + 1) (probed + 1)

/-- The JSON document a successful `getWorkerList` call serializes.
`processed` is optional because the zero-workers branch of the source
returns an object without a `processed` field; `message` likewise only
appears on that branch. -/
structure ListResponse where
  totalWorkers : Nat
  showing : Nat
  processed : Option Nat
  workers : List WorkerRecord
  message : Option String
  deriving Repr, DecidableEq

/-- The `getWorkerList` tool handler. External state is passed in: the
cache, the clock, the identity-source enumeration outcome, and the
per-key probe outcomes. Returns the response document, the cache
afterwards, and whether the identity source was enumerated, or the
handler's error string when the enumeration threw. -/
def getWorkerList (cache : WorkerCache) (now : Nat)
    (enumerate : Except String (List String))
    (probe : String → ProbeOutcome)
    (limit : Nat) (onlineOnly : Bool) (teeType : Option String) :
    Except String (ListResponse × WorkerCache × Bool) :=
  match getCachedKeys cache now enumerate with
  | .error e => .error ("Error getting worker list: " ++ e)
  | .ok (workerKeys, cache2, enumerated) =>
    if workerKeys.length = 0 then
      .ok ({ totalWorkers := 0, showing := 0, processed := none, workers := []
             message := some "No workers registered on the network" },
           cache2, enumerated)
    else
      let maxToProcess := min (limit * 3) 30
      let r := processWorkers probe limit maxToProcess onlineOnly teeType
        workerKeys [] 0 0
      .ok ({ totalWorkers := workerKeys.length, showing := r.1.length
             processed := some r.2.1, workers := r.1, message := none },
           cache2, enumerated)

/-- The body the primary attestation verifier returns on success
(`response.data` in the source). -/
structure PrimaryResponse where
  verified : Bool
  attestationType : String
  confidenceLevel : Nat
  timestamp : Nat
  details : String
  deriving Repr, DecidableEq

/-- The three shapes of document `verifyAttestation` can return: the
primary verifier's result, the on-chain fallback result (whose
`onChainVerified` field is always `true` and whose note is fixed), or
the error text. -/
inductive AttestationReply where
  | primary (worker : String) (verified : Bool) (attestationType : String)
      (confidenceLevel : Nat) (timestamp : Nat) (details : String)
  | onChain (worker : String) (onChainVerified : Bool) (confidenceLevel : Nat)
      (note : String)
  | failure (msg : String)
  deriving Repr, DecidableEq

/-- True iff a reply is the fallback on-chain shape with
`onChainVerified = true`. -/
def AttestationReply.isFallbackVerified : AttestationReply → Bool
  | .onChain _ v _ _ => v
  | _ => false

/-- The `verifyAttestation` tool handler. The primary verifier and the
on-chain registry lookup are passed in as functions; `registry key =
none` covers both an empty storage value and a failed chain query, since
the source's inner catch turns both into the same reply built from the
outer (primary) error's message. -/
def verifyAttestation
    (primary : String → Option String → Except String PrimaryResponse)
    (registry : String → Option WorkerInfo)
    (workerPublicKey : String) (reportData : Option String) :
    AttestationReply :=
  match primary workerPublicKey reportData with
  | .ok r =>
    .primary workerPublicKey r.verified r.attestationType r.confidenceLevel
      r.timestamp r.details
  | .error e =>
    match registry workerPublicKey with
    | some info =>
      .onChain workerPublicKey true info.confidenceLevel
        "Attestation verified on-chain"
    | none => .failure ("Error verifying attestation: " ++ e)

/-- Invariant of the worker loop: if the accumulated list is within the
limit and no longer than the processed counter, the same holds of the
final list, final counter and limit. -/
lemma processWorkers_bounds (probe : String → ProbeOutcome)
    (limit maxToProcess : Nat) (oo : Bool) (tt : Option String) :
    ∀ (keys : List String) (acc : List WorkerRecord) (p pr : Nat),
      acc.length ≤ limit → acc.length ≤ p →
      (processWorkers probe limit maxToProcess oo tt keys acc p pr).1.length
          ≤ limit ∧
        (processWorkers probe limit maxToProcess oo tt keys acc p pr).1.length
          ≤ (processWorkers probe limit maxToProcess oo tt keys acc p pr).2.1 := by
  intro keys
  induction keys with
  | nil => intro acc p pr h1 h2; exact ⟨h1, h2⟩
  | cons k rest ih =>
    intro acc p pr h1 h2
    by_cases hmax : maxToProcess ≤ p
    · simp only [processWorkers, if_pos hmax]
      exact ⟨h1, h2⟩
    · by_cases hlim : limit ≤ acc.length
      · simp only [processWorkers, if_neg hmax, if_pos hlim]
        exact ⟨h1, h2⟩
      · cases hpk : probe k with
        | threw =>
          simp only [processWorkers, if_neg hmax, if_neg hlim, hpk]
          exact ih acc (p + 1) (pr + 1) h1 (Nat.le_succ_of_le h2)
        | empty =>
          simp only [processWorkers, if_neg hmax, if_neg hlim, hpk]
          exact ih acc p (pr + 1) h1 h2
        | found info st =>
          simp only [processWorkers, if_neg hmax, if_neg hlim, hpk]
          cases hon : passesOnlineFilter oo st with
          | false =>
            simp only [hon, Bool.not_false, if_true]
            exact ih acc p (pr + 1) h1 h2
          | true =>
            cases hte : passesTeeFilter tt
                (detectTeeType info.attestationMethod info.features) with
            | false =>
              simp only [hon, hte, Bool.not_true, Bool.not_false,
                Bool.false_eq_true, if_false, if_true]
              exact ih acc p (pr + 1) h1 h2
            | true =>
              simp only [hon, hte, Bool.not_true, Bool.false_eq_true, if_false]
              refine ih (acc ++ [buildRecord k info st]) (p + 1) (pr + 1) ?_ ?_
              · simpa using Nat.succ_le_of_lt (Nat.lt_of_not_le hlim)
              · simpa using Nat.succ_le_succ h2

/-- A sample worker info value used to instantiate theorems. -/
def info0 : WorkerInfo :=
  { confidenceLevel := 2, runtimeVersion := 1, attestationMethod := "Ias"
    features := [1], initialScore := none, lastUpdated := none }

/-- Claim C4 counterexample: the code's classifier does not equal the
spec's precedence table. A node with attestation method None and feature
flags containing 1 classifies as Intel SGX in the code (which also tests
flag 1 in the first branch), while the spec's table yields Unknown. -/
theorem detectTeeType_ne_specClassify :
    detectTeeType "None" [1] ≠ specClassify "None" [1] := by decide

/-- Claim C4 (amended): the classifier is a total deterministic function
of the pair and equals the precedence table extended so that its first
two branches also fire on feature flags 1 and 2 respectively; in
particular attestation method Ias with flags 3 and 4 still classifies as
Intel SGX. -/
theorem detectTeeType_eq_amendedClassify :
    ∀ (m : String) (fs : List Nat),
      detectTeeType m fs = amendedClassify m fs ∧
        detectTeeType "Ias" [3, 4] = "Intel SGX" := by
  intro m fs
  refine ⟨?_, by decide⟩
  by_cases h1 : m = "Ias" <;> by_cases h2 : m = "Dcap" <;>
    by_cases f1 : fs.contains 1 <;> by_cases f2 : fs.contains 2 <;>
      simp [detectTeeType, amendedClassify, h1, h2, f1, f2]

/-- Claim C5: over the spec's interface domain (a category filter is
either absent or one of the five categories, and a record's detected
type is a category string), the code's filter predicate coincides with
the spec's reference definition: onlineOnly passes iff the state is
Ready or WorkerIdle, a present category filter passes iff the category
equals it or is Unknown, and the two conditions are conjoined. -/
theorem matchesFilters_eq_specMatches :
    ∀ (onlineOnly : Bool) (workerState : String) (c : Category)
      (filt : Option Category),
      matchesFilters onlineOnly (filt.map Category.toStr) workerState
          (Category.toStr c)
        = specMatches onlineOnly filt workerState c := by
  intro oo st c filt
  rcases filt with _ | f
  · cases oo <;> by_cases h1 : st = "Ready" <;> by_cases h2 : st = "WorkerIdle" <;>
      simp [matchesFilters, specMatches, passesOnlineFilter, passesTeeFilter,
        teeTypeActive, h1, h2]
  · cases oo <;> cases f <;> cases c <;>
      by_cases h1 : st = "Ready" <;> by_cases h2 : st = "WorkerIdle" <;>
        simp [matchesFilters, specMatches, passesOnlineFilter, passesTeeFilter,
          teeTypeActive, Category.toStr, h1, h2]

/-- Claim C7: whenever the primary verifier throws and the fallback
registry lookup finds the worker, `verifyAttestation` returns the
on-chain reply with `onChainVerified = true`, the registry's confidence
level, and the fixed note — independent of what the primary error was. -/
theorem verifyAttestation_fallback_found (primary :
      String → Option String → Except String PrimaryResponse)
    (registry : String → Option WorkerInfo) (k : String) (rd : Option String)
    (e : String) (info : WorkerInfo)
    (hp : primary k rd = .error e) (hr : registry k = some info) :
    verifyAttestation primary registry k rd
        = .onChain k true info.confidenceLevel "Attestation verified on-chain"
      ∧ (verifyAttestation primary registry k rd).isFallbackVerified = true := by
  unfold verifyAttestation
  rw [hp, hr]
  exact ⟨rfl, rfl⟩

/-- Witness for C7 at a concrete failing primary and a registry
containing the key. -/
theorem verifyAttestation_fallback_found_witness :
    verifyAttestation (fun _ _ => .error "network error") (fun _ => some info0)
        "0xabc" none
      = .onChain "0xabc" true 2 "Attestation verified on-chain" :=
  (verifyAttestation_fallback_found (fun _ _ => .error "network error")
    (fun _ => some info0) "0xabc" none "network error" info0 rfl rfl).1

/-- Claim C8 counterexample: primary fails with a network error and the
key is absent from the registry; the reply carries the primary error
message, not a worker-not-found error. -/
theorem verifyAttestation_both_fail_counterexample :
    verifyAttestation (fun _ _ => .error "network unreachable")
        (fun _ => none) "0xabc" none
      = .failure "Error verifying attestation: network unreachable"
    ∧ verifyAttestation (fun _ _ => .error "network unreachable")
        (fun _ => none) "0xabc" none
      ≠ .failure "Error verifying attestation: Worker not found" := by
  exact ⟨rfl, by decide⟩

/-- Claim C8 (amended): when the primary verifier fails and the key is
absent from the fallback registry, the operation fails, but the error
surfaced to the caller is the original primary failure message (the
fallback's worker-not-found is swallowed by the inner catch). -/
theorem verifyAttestation_both_fail (primary :
      String → Option String → Except String PrimaryResponse)
    (registry : String → Option WorkerInfo) (k : String) (rd : Option String)
    (e : String) (hp : primary k rd = .error e) (hr : registry k = none) :
    verifyAttestation primary registry k rd
      = .failure ("Error verifying attestation: " ++ e) := by
  unfold verifyAttestation
  rw [hp, hr]

/-- Witness for amended C8 at a concrete failing primary and an empty
registry. -/
theorem verifyAttestation_both_fail_witness :
    verifyAttestation (fun _ _ => .error "timeout") (fun _ => none) "0xdd" none
      = .failure "Error verifying attestation: timeout" :=
  verifyAttestation_both_fail (fun _ _ => .error "timeout") (fun _ => none)
    "0xdd" none "timeout" rfl rfl

/-- A primary verifier whose failure message depends on the report data,
as a real verifier's malformed-payload error can. -/
def reportEchoPrimary : String → Option String → Except String PrimaryResponse :=
  fun _ rd => .error ("bad report: " ++ rd.getD "missing")

/-- Claim C10 counterexample: with the key absent from the registry, two
report-data values for the same key and registry state yield different
replies, because the surfaced message embeds the primary error, which
may itself depend on the report data. -/
theorem verifyAttestation_reportData_dependent :
    verifyAttestation reportEchoPrimary (fun _ => none) "0xabc" (some "aa")
      ≠ verifyAttestation reportEchoPrimary (fun _ => none) "0xabc" (some "bb") := by
  decide

/-- Claim C10 (amended): report data is never consulted on the fallback
path — when the primary fails for both report-data values and the
registry finds the key, the two calls return identical replies (so the
result can depend on the report data only through the primary error
surfaced on the not-found path). -/
theorem verifyAttestation_fallback_independent (primary :
      String → Option String → Except String PrimaryResponse)
    (registry : String → Option WorkerInfo) (k : String)
    (rd1 rd2 : Option String) (e1 e2 : String) (info : WorkerInfo)
    (hp1 : primary k rd1 = .error e1) (hp2 : primary k rd2 = .error e2)
    (hr : registry k = some info) :
    verifyAttestation primary registry k rd1
      = verifyAttestation primary registry k rd2 := by
  unfold verifyAttestation
  rw [hp1, hp2, hr]

/-- Witness for amended C10: a primary whose error depends on the report
data, a registry that finds the key — the replies coincide. -/
theorem verifyAttestation_fallback_independent_witness :
    verifyAttestation reportEchoPrimary (fun _ => some info0) "0xabc" (some "aa")
      = verifyAttestation reportEchoPrimary (fun _ => some info0) "0xabc"
          (some "bb") :=
  verifyAttestation_fallback_independent reportEchoPrimary (fun _ => some info0)
    "0xabc" (some "aa") (some "bb") "bad report: aa" "bad report: bb" info0
    rfl rfl rfl

/-- Claim C3: every successful `getWorkerList` call shows at most `limit`
records, and whenever the `processed` counter is reported, it is at
least the number of records shown. -/
theorem getWorkerList_shown_bounds (cache : WorkerCache) (now : Nat)
    (enumerate : Except String (List String)) (probe : String → ProbeOutcome)
    (limit : Nat) (oo : Bool) (tt : Option String)
    (resp : ListResponse) (c2 : WorkerCache) (b : Bool)
    (h : getWorkerList cache now enumerate probe limit oo tt = .ok (resp, c2, b)) :
    resp.showing ≤ limit ∧ ∀ p, resp.processed = some p → resp.showing ≤ p := by
  unfold getWorkerList at h
  cases hc : getCachedKeys cache now enumerate with
  | error e => rw [hc] at h; exact absurd h (by simp)
  | ok v =>
    obtain ⟨keys, c2x, en⟩ := v
    rw [hc] at h
    by_cases hz : keys.length = 0
    · simp only [hz, if_pos, Except.ok.injEq, Prod.mk.injEq] at h
      obtain ⟨hr, -⟩ := h
      subst hr
      exact ⟨Nat.zero_le _, fun p hp => by simp at hp⟩
    · simp only [hz, if_neg, Except.ok.injEq, Prod.mk.injEq, if_false] at h
      obtain ⟨hr, -⟩ := h
      subst hr
      have hb := processWorkers_bounds probe limit (min (limit * 3) 30) oo tt
        keys [] 0 0 (Nat.zero_le _) (Nat.le_refl _)
      refine ⟨hb.1, fun p hp => ?_⟩
      simp only [Option.some.injEq] at hp
      subst hp
      exact hb.2

/-- The response of the concrete call used to witness claims C3 and C9. -/
def resp0 : ListResponse :=
  { totalWorkers := 2, showing := 1, processed := some 1
    workers := [buildRecord "0xaa" info0 "Ready"], message := none }

/-- Witness for C3: a concrete two-key registry with limit 1 shows one
record and reports one processed key. -/
theorem getWorkerList_shown_bounds_witness :
    getWorkerList ⟨none, 0⟩ 0 (.ok ["0xaa", "0xbb"])
        (fun _ => .found info0 "Ready") 1 false none
      = .ok (resp0, ⟨some ["0xaa", "0xbb"], 0⟩, true)
    ∧ resp0.showing ≤ 1 :=
  ⟨rfl, (getWorkerList_shown_bounds ⟨none, 0⟩ 0 (.ok ["0xaa", "0xbb"])
    (fun _ => .found info0 "Ready") 1 false none resp0
    ⟨some ["0xaa", "0xbb"], 0⟩ true rfl).2 1 rfl⟩

/-- Claim C9 counterexample: with zero registered keys, the successful
response carries `totalWorkers` and `showing` but no `processed` field
at all, contrary to the claim that both counters are always reported. -/
theorem getWorkerList_zero_keys_omits_processed :
    getWorkerList ⟨none, 0⟩ 0 (.ok []) (fun _ => .empty) 10 false none
      = .ok ({ totalWorkers := 0, showing := 0, processed := none, workers := []
               message := some "No workers registered on the network" },
             ⟨some [], 0⟩, true) := rfl

/-- Claim C9 (amended): every successful call reports `showing`, and
reports `processed` exactly when the registry was non-empty; the
zero-keys branch returns a response without a `processed` field. -/
theorem getWorkerList_processed_reported (cache : WorkerCache) (now : Nat)
    (enumerate : Except String (List String)) (probe : String → ProbeOutcome)
    (limit : Nat) (oo : Bool) (tt : Option String)
    (resp : ListResponse) (c2 : WorkerCache) (b : Bool)
    (h : getWorkerList cache now enumerate probe limit oo tt = .ok (resp, c2, b)) :
    (resp.totalWorkers ≠ 0 → resp.processed.isSome = true) ∧
      (resp.totalWorkers = 0 → resp.processed = none) := by
  unfold getWorkerList at h
  cases hc : getCachedKeys cache now enumerate with
  | error e => rw [hc] at h; exact absurd h (by simp)
  | ok v =>
    obtain ⟨keys, c2x, en⟩ := v
    rw [hc] at h
    by_cases hz : keys.length = 0
    · simp only [hz, if_pos, Except.ok.injEq, Prod.mk.injEq] at h
      obtain ⟨hr, -⟩ := h
      subst hr
      exact ⟨fun hn => absurd rfl hn, fun _ => rfl⟩
    · simp only [hz, if_neg, Except.ok.injEq, Prod.mk.injEq, if_false] at h
      obtain ⟨hr, -⟩ := h
      subst hr
      exact ⟨fun _ => rfl, fun hn => absurd hn hz⟩

/-- Witness for amended C9: a one-key registry whose probe comes back
empty still reports `processed = 0`. -/
theorem getWorkerList_processed_reported_witness :
    getWorkerList ⟨none, 0⟩ 5 (.ok ["0xcc"]) (fun _ => .empty) 2 false none
      = .ok ({ totalWorkers := 1, showing := 0, processed := some 0
               workers := [], message := none }, ⟨some ["0xcc"], 5⟩, true)
    ∧ (({ totalWorkers := 1, showing := 0, processed := some 0
          workers := [], message := none } : ListResponse)).processed.isSome
        = true :=
  ⟨rfl, (getWorkerList_processed_reported ⟨none, 0⟩ 5 (.ok ["0xcc"])
    (fun _ => .empty) 2 false none _ ⟨some ["0xcc"], 5⟩ true rfl).1
    (by decide)⟩

/-- A probe whose workers all come back live but in the Unresponsive
state, so the online filter rejects every one of them. -/
def probeUnresponsive : String → ProbeOutcome :=
  fun _ => .found info0 "Unresponsive"

/-- Claim C2: the `continue` statements of the source sit before
`processedCount++`, so a filtered-out key is probed without consuming
the over-fetch window. With limit 1 (window `min (1 * 3) 30 = 3`),
onlineOnly set, and four keys all probing as Unresponsive, all four keys
are probed — more than the window — while the reported `processed`
counter stays 0 and the response shows nothing. -/
theorem processWorkers_probes_beyond_window :
    processWorkers probeUnresponsive 1 (min (1 * 3) 30) true none
        ["0xa1", "0xa2", "0xa3", "0xa4"] [] 0 0 = ([], 0, 4)
    ∧ min (1 * 3) 30 < 4
    ∧ getWorkerList ⟨none, 0⟩ 0 (.ok ["0xa1", "0xa2", "0xa3", "0xa4"])
        probeUnresponsive 1 true none
      = .ok ({ totalWorkers := 4, showing := 0, processed := some 0
               workers := [], message := none },
             ⟨some ["0xa1", "0xa2", "0xa3", "0xa4"], 0⟩, true) := by
  refine ⟨rfl, by decide, rfl⟩

/-- Claim C1: after an enumeration at time t1 returning keys ks1, the
stored entry is exactly (ks1, t1); a later call within the TTL returns
the identical key sequence with no second enumeration and an unchanged
entry (also at the getWorkerList level); once the TTL has expired, the
next call enumerates afresh and replaces the stored entry with the new
keys and timestamp. -/
theorem workerCache_ttl (ks1 : List String) (t1 t2 : Nat)
    (enum2 : Except String (List String)) :
    (∀ (c0 : WorkerCache) (r : List String) (c1 : WorkerCache),
        getCachedKeys c0 t1 (.ok ks1) = .ok (r, c1, true) →
        r = ks1 ∧ c1 = ⟨some ks1, t1⟩) ∧
    (t2 - t1 < cacheTTL →
        getCachedKeys ⟨some ks1, t1⟩ t2 enum2
          = .ok (ks1, ⟨some ks1, t1⟩, false)) ∧
    (cacheTTL ≤ t2 - t1 → ∀ ks2, enum2 = .ok ks2 →
        getCachedKeys ⟨some ks1, t1⟩ t2 enum2
          = .ok (ks2, ⟨some ks2, t2⟩, true)) ∧
    (t2 - t1 < cacheTTL → ∀ probe limit oo tt, ∃ resp,
        getWorkerList ⟨some ks1, t1⟩ t2 enum2 probe limit oo tt
          = .ok (resp, ⟨some ks1, t1⟩, false)) := by
  have hfresh : ∀ (h : t2 - t1 < cacheTTL),
      getCachedKeys ⟨some ks1, t1⟩ t2 enum2
        = .ok (ks1, ⟨some ks1, t1⟩, false) := by
    intro h
    unfold getCachedKeys
    simp [h]
  refine ⟨?_, hfresh, ?_, ?_⟩
  · intro c0 r c1 h
    obtain ⟨data, ts⟩ := c0
    cases data with
    | none =>
      simp only [getCachedKeys, Except.ok.injEq, Prod.mk.injEq] at h
      exact ⟨h.1.symm, h.2.1.symm⟩
    | some keys =>
      by_cases hv : t1 - ts < cacheTTL
      · simp only [getCachedKeys, if_pos hv, Except.ok.injEq,
          Prod.mk.injEq] at h
        exact absurd h.2.2 (by simp)
      · simp only [getCachedKeys, if_neg hv, Except.ok.injEq,
          Prod.mk.injEq] at h
        exact ⟨h.1.symm, h.2.1.symm⟩
  · intro hexp ks2 he
    subst he
    unfold getCachedKeys
    simp [Nat.not_lt.mpr hexp]
  · intro h probe limit oo tt
    unfold getWorkerList
    rw [hfresh h]
    by_cases hz : ks1.length = 0
    · simp only [hz, if_pos]
      exact ⟨_, rfl⟩
    · simp only [hz, if_neg, if_false]
      exact ⟨_, rfl⟩

/-- Witness for C1: a fresh call 1000 ms after the entry was stored
returns the cached keys without enumerating; a call exactly at the TTL
boundary enumerates and replaces the entry. -/
theorem workerCache_ttl_witness :
    getCachedKeys ⟨some ["0xaa"], 0⟩ 1000 (.ok ["0xbb"])
        = .ok (["0xaa"], ⟨some ["0xaa"], 0⟩, false)
    ∧ getCachedKeys ⟨some ["0xaa"], 0⟩ 60000 (.ok ["0xbb"])
        = .ok (["0xbb"], ⟨some ["0xbb"], 60000⟩, true) :=
  ⟨(workerCache_ttl ["0xaa"] 0 1000 (.ok ["0xbb"])).2.1 (by decide),
   (workerCache_ttl ["0xaa"] 0 60000 (.ok ["0xbb"])).2.2.1 (by decide)
     ["0xbb"] rfl⟩

/-- Claim C6 counterexample: with a stale entry (stored at time 0, now
60000 = TTL) and a failing enumeration, `getWorkerList` fails instead of
serving the stale keys. -/
theorem getWorkerList_stale_not_served :
    getWorkerList ⟨some ["0xstale"], 0⟩ 60000 (.error "SourceUnavailable")
        (fun _ => .empty) 10 false none
      = .error "Error getting worker list: SourceUnavailable" := rfl

/-- Claim C6 (amended): whenever the enumeration fails at refresh time —
because there is no prior entry or the prior entry's TTL has expired —
the call propagates the error regardless of any stale entry; a prior
entry is served (with no enumeration) only while its TTL is unexpired. -/
theorem getWorkerList_enumeration_failure (cache : WorkerCache) (now : Nat)
    (e : String) (probe : String → ProbeOutcome) (limit : Nat) (oo : Bool)
    (tt : Option String) :
    (cache.data = none ∨ cacheTTL ≤ now - cache.timestamp →
        getWorkerList cache now (.error e) probe limit oo tt
          = .error ("Error getting worker list: " ++ e)) ∧
    (∀ ks, cache.data = some ks → now - cache.timestamp < cacheTTL →
        ∀ enum, getCachedKeys cache now enum = .ok (ks, cache, false)) := by
  obtain ⟨data, ts⟩ := cache
  constructor
  · intro hcase
    cases data with
    | none => rfl
    | some keys =>
      rcases hcase with hn | hexp
      · exact absurd hn (by simp)
      · unfold getWorkerList getCachedKeys
        simp [Nat.not_lt.mpr hexp]
  · intro ks hd hlt enum
    simp only [Option.some.injEq] at hd
    subst hd
    unfold getCachedKeys
    simp [hlt]

/-- Witness for amended C6: a stale entry with a failing source yields
the error; a fresh entry is served without enumeration. -/
theorem getWorkerList_enumeration_failure_witness :
    getWorkerList ⟨some ["0xaa"], 0⟩ 60000 (.error "down") (fun _ => .empty)
        10 false none
      = .error "Error getting worker list: down"
    ∧ getCachedKeys ⟨some ["0xaa"], 0⟩ 1 (.ok []) = .ok
        (["0xaa"], ⟨some ["0xaa"], 0⟩, false) :=
  ⟨(getWorkerList_enumeration_failure ⟨some ["0xaa"], 0⟩ 60000 "down"
      (fun _ => .empty) 10 false none).1 (Or.inr (by decide)),
   (getWorkerList_enumeration_failure ⟨some ["0xaa"], 0⟩ 1 "down"
      (fun _ => .empty) 10 false none).2 ["0xaa"] rfl (by decide) (.ok [])⟩

end PhalaMcp
